import Mathlib

/-!
# Verification of the `portable_env` fetch scripts

Shallow embedding of the two Python scripts of the repository,

* `scripts/soar_fetch_static.py` — the Asset Resolver: given a GitHub
  `owner/repo` identifier and an architecture, it tries a three-tier
  fallback chain of invocations of the external `soar dl` CLI;
* `scripts/batch_soar_fetch.py` — the Batch Orchestrator: runs the Asset
  Resolver once per package, classifies the downloaded files and copies
  them into an output `bin` directory, and writes a failure report.

External collaborators (the `soar` CLI, the `file` command, the
filesystem) are modelled as explicit environment parameters, so every
definition is an executable function of the source code's control flow
over those outcomes.
-/

namespace PortableEnv

/-! ## Python string membership (`needle in hay`) -/

/-- Whether `needle` is a prefix of `hay`, on character lists. -/
def charListHasPre : List Char → List Char → Bool
  | [], _ => true
  | _ :: _, [] => false
  | a :: as, b :: bs => a == b && charListHasPre as bs

/-- Whether `needle` occurs as a contiguous sublist of `hay`. -/
def charListHasSub (needle : List Char) : List Char → Bool
  | [] => charListHasPre needle []
  | b :: bs => charListHasPre needle (b :: bs) || charListHasSub needle bs

/-- Python's substring test `needle in hay`. -/
def pyIn (needle hay : String) : Bool :=
  charListHasSub needle.toList hay.toList

/-- Python truthiness of an optional string argument: `None` and the empty
string are falsy (`args.repo`, `args.dest`, `args.arch` in the scripts). -/
def pyTruthyOpt : Option String → Bool
  | none => false
  | some s => !(s == "")

/-! ## `soar_fetch_static.py`: architecture handling -/

/-- `detect_arch` (soar_fetch_static.py, lines 49-58): map the host
machine type to a normalized architecture; `none` models `die` (exit 1). -/
def detect_arch (machineType : String) : Option String :=
  if machineType == "x86_64" || machineType == "amd64" then some "x86_64"
  else if machineType == "aarch64" || machineType == "arm64" then some "arm64"
  else none

/-- `validate_arch` (soar_fetch_static.py, lines 61-68): normalize a
`--arch` value; `none` models `die` (exit 1). -/
def validate_arch (arch : String) : Option String :=
  if arch == "x86_64" || arch == "amd64" then some "x86_64"
  else if arch == "arm64" || arch == "aarch64" then some "arm64"
  else none

/-! ## `soar_fetch_static.py`: asset pattern lists -/

/-- `get_regex_list` (soar_fetch_static.py, lines 71-94): the Tier-1
musl archive patterns, ordered from most to least specific. -/
def get_regex_list (arch : String) : List String :=
  if arch == "x86_64" then
    [ "(?i).*x86[_-]?64.*musl.*\\.tar\\.(?:gz|xz)$"
    , "(?i).*amd64.*musl.*\\.tar\\.(?:gz|xz)$"
    , "(?i).*x86.*musl.*\\.tar\\.(?:gz|xz)$"
    , "(?i).*64.*musl.*\\.tar\\.(?:gz|xz)$"
    , "(?i).*musl.*x86.*\\.tar\\.(?:gz|xz)$" ]
  else
    [ "(?i).*aarch64.*musl.*\\.tar\\.(?:gz|xz)$"
    , "(?i).*arm64.*musl.*\\.tar\\.(?:gz|xz)$"
    , "(?i).*arm.*musl.*\\.tar\\.(?:gz|xz)$"
    , "(?i).*aarch.*musl.*\\.tar\\.(?:gz|xz)$"
    , "(?i).*musl.*arm.*\\.tar\\.(?:gz|xz)$" ]

/-- `get_generic_regex_list` (soar_fetch_static.py, lines 97-127): the
Tier-3 generic (any-libc) archive patterns, most to least specific. -/
def get_generic_regex_list (arch : String) : List String :=
  if arch == "x86_64" then
    [ "(?i).*x86[_-]?64.*linux.*\\.tar\\.(?:gz|xz)$"
    , "(?i).*amd64.*linux.*\\.tar\\.(?:gz|xz)$"
    , "(?i).*x86.*linux.*\\.tar\\.(?:gz|xz)$"
    , "(?i).*linux.*x86[_-]?64.*\\.tar\\.(?:gz|xz)$"
    , "(?i).*linux.*amd64.*\\.tar\\.(?:gz|xz)$"
    , "(?i).*x86[_-]?64.*\\.tar\\.(?:gz|xz)$"
    , "(?i).*amd64.*\\.tar\\.(?:gz|xz)$" ]
  else
    [ "(?i).*aarch64.*linux.*\\.tar\\.(?:gz|xz)$"
    , "(?i).*arm64.*linux.*\\.tar\\.(?:gz|xz)$"
    , "(?i).*arm.*linux.*\\.tar\\.(?:gz|xz)$"
    , "(?i).*aarch.*linux.*\\.tar\\.(?:gz|xz)$"
    , "(?i).*linux.*aarch64.*\\.tar\\.(?:gz|xz)$"
    , "(?i).*linux.*arm64.*\\.tar\\.(?:gz|xz)$"
    , "(?i).*aarch64.*\\.tar\\.(?:gz|xz)$"
    , "(?i).*arm64.*\\.tar\\.(?:gz|xz)$" ]

/-! ## `soar_fetch_static.py`: subprocess commands and outcomes -/

/-- The argv built by `attempt_download_github` and
`attempt_download_generic` (soar_fetch_static.py, lines 156-164 and
240-248): the `soar dl` command for a GitHub-scoped query.  Note that
`--extract-dir` is given the caller's `dest_dir` while `-o` (the download
output location) is given the per-call temporary directory `tmpd`. -/
def github_dl_cmd (repo regex dest tmpd : String) : List String :=
  [ "soar", "dl", "-y", "--regex", regex, "--github", repo,
    "--extract", "--extract-dir", dest, "-o", tmpd ]

/-- The argv built by `attempt_download_soar` (soar_fetch_static.py,
line 211): the index-lookup command, run with the working directory set
to the destination. -/
def soar_dl_cmd (pkg : String) : List String :=
  [ "soar", "dl", pkg, "-y" ]

/-- Outcome of one GitHub-scoped `soar dl` subprocess: either the process
ran (with an exit code, and the list of files it left in the `-o`
temporary download directory), or `subprocess.run` raised. -/
inductive GithubRunResult where
  | ran (returncode : Int) (tmpFiles : List String)
  | exn
deriving DecidableEq, Repr

/-- Outcome of the Tier-2 index-lookup `soar dl` subprocess: exit code
and captured stdout/stderr, or a raised exception. -/
inductive SoarRunResult where
  | ran (returncode : Int) (stdout stderr : String)
  | exn
deriving DecidableEq, Repr

/-- One run's environment: the outcome of the GitHub-scoped subprocess as
a function of the regex used (repo and destination are fixed for the
run), and the outcome of the single Tier-2 index lookup. -/
structure ResolveEnv where
  github : String → GithubRunResult
  soar : SoarRunResult

/-- The success judgement of `attempt_download_github` /
`attempt_download_generic` (soar_fetch_static.py, lines 166-183 and
250-267): after the subprocess returns, the function answers `True` iff
`any(tmp_path.iterdir())` — at least one entry exists in the temporary
download directory — and the subprocess's exit code is never consulted
(`check=False`, `result.returncode` unused).  An exception yields
`False`. -/
def github_attempt_decision : GithubRunResult → Bool
  | .ran _ tmpFiles => !tmpFiles.isEmpty
  | .exn => false

/-- `attempt_download_github` (soar_fetch_static.py, lines 148-183),
with the subprocess outcome drawn from the environment. -/
def attempt_download_github (env : ResolveEnv) (regex : String) : Bool :=
  github_attempt_decision (env.github regex)

/-- `attempt_download_github_multi` (soar_fetch_static.py, lines
186-196): try each regex in list order, stopping at the first success.
Returns the list of regexes actually attempted and the overall result. -/
def attempt_download_github_multi (env : ResolveEnv) :
    List String → List String × Bool
  | [] => ([], false)
  | r :: rest =>
    if attempt_download_github env r then ([r], true)
    else
      let t := attempt_download_github_multi env rest
      (r :: t.1, t.2)

/-- The success judgement of `attempt_download_soar` (soar_fetch_static.py,
lines 199-229): `False` if the exit code is nonzero or the combined
stdout+stderr contains one of the sentinel substrings `"[ERROR]"` or
`"Invalid download resource"`; `True` otherwise; `False` on exception. -/
def attempt_download_soar : SoarRunResult → Bool
  | .ran rc out err =>
    let output := out ++ err
    if rc != 0 || pyIn "[ERROR]" output || pyIn "Invalid download resource" output
    then false else true
  | .exn => false

/-! ## `soar_fetch_static.py`: argument parsing and main -/

/-- Result of `parse_args` (soar_fetch_static.py, lines 270-296). -/
inductive ParseOutcome where
  | helpExit (code : Nat)
  | fatal (msg : String)
  | ok (repo dest : String) (arch : Option String)
deriving DecidableEq, Repr

/-- `parse_args` (soar_fetch_static.py, lines 270-296): help or a missing
repo prints usage and exits (0 with `--help`, else 1); a missing `--dest`
is fatal; a repo not containing `"/"` is fatal; otherwise the arguments
are accepted. -/
def parse_args (repo : Option String) (helpFlag : Bool)
    (dest arch : Option String) : ParseOutcome :=
  if helpFlag || !pyTruthyOpt repo then
    .helpExit (if helpFlag then 0 else 1)
  else if !pyTruthyOpt dest then
    .fatal "--dest <dir> is required"
  else if !pyIn "/" (repo.getD "") then
    .fatal "repo must be in owner/repo format"
  else
    .ok (repo.getD "") (dest.getD "") arch

/-- The resolution tiers of `main` (soar_fetch_static.py, lines 299-335). -/
inductive Tier where
  | githubMusl
  | soarRepo
  | githubGeneric
deriving DecidableEq, Repr

/-- The observable result of `main`: which tiers were attempted (in
order), the process exit code, and the permission-changing filesystem
operations performed, as (path, mode) pairs.  `main` (soar_fetch_static.py,
lines 299-335) contains no `chmod` or permission-setting call on any
branch — after a successful tier it only prints and exits — so `chmodOps`
is the empty list on every branch. -/
structure MainResult where
  tiersTried : List Tier
  exitCode : Nat
  chmodOps : List (String × Nat)
deriving DecidableEq, Repr

/-- `main` (soar_fetch_static.py, lines 299-335), after argument handling:
Tier 1 is the GitHub musl-pattern chain, Tier 2 the index lookup, Tier 3
the GitHub generic-pattern chain; the first success exits 0, and if all
fail `die("All attempts failed.")` exits 1. -/
def main_resolve (env : ResolveEnv) (arch : String) : MainResult :=
  if (attempt_download_github_multi env (get_regex_list arch)).2 then
    ⟨[.githubMusl], 0, []⟩
  else if attempt_download_soar env.soar then
    ⟨[.githubMusl, .soarRepo], 0, []⟩
  else if (attempt_download_github_multi env (get_generic_regex_list arch)).2 then
    ⟨[.githubMusl, .soarRepo, .githubGeneric], 0, []⟩
  else
    ⟨[.githubMusl, .soarRepo, .githubGeneric], 1, []⟩

/-- The whole Asset Resolver process (soar_fetch_static.py, `main`
including `parse_args`, `detect_arch`, `validate_arch`): a fatal parse or
architecture error exits 1 with no tier attempted (no subprocess
spawned); otherwise the tier chain runs. -/
def soar_fetch_program (repoArg : Option String) (helpFlag : Bool)
    (destArg archArg : Option String) (hostMachine : String)
    (env : ResolveEnv) : MainResult :=
  match parse_args repoArg helpFlag destArg archArg with
  | .helpExit c => ⟨[], c, []⟩
  | .fatal _ => ⟨[], 1, []⟩
  | .ok _ _ archOpt =>
    let archInput : Option String :=
      if pyTruthyOpt archOpt then archOpt else detect_arch hostMachine
    match archInput with
    | none => ⟨[], 1, []⟩
    | some a =>
      match validate_arch a with
      | none => ⟨[], 1, []⟩
      | some arch => main_resolve env arch

/-! ## `batch_soar_fetch.py`: architecture mapping -/

/-- `map_arch` (batch_soar_fetch.py, lines 30-35): map the `--target-arch`
value; `"arm64"` maps to `"arm64"` and every other string falls into the
`else` branch yielding `"x86_64"`.  There is no error branch. -/
def map_arch (targetArch : String) : String :=
  if targetArch == "arm64" then "arm64" else "x86_64"

/-! ## `batch_soar_fetch.py`: file classification -/

/-- The 4-byte ELF magic `\x7fELF`. -/
def ELF_MAGIC : List Nat := [0x7f, 0x45, 0x4c, 0x46]

/-- The 2-byte shebang `#!`. -/
def SHEBANG : List Nat := [0x23, 0x21]

/-- `is_elf_binary` (batch_soar_fetch.py, lines 38-49): run
`file -L <path>` and answer whether the string `"ELF"` occurs anywhere in
its standard output; any exception (including `file` being absent or
timing out) yields `False`.  The external `file` tool is modelled by a
`describe` function from content bytes to the textual description it
prints (`none` models an exception); its standard output is the file
path, `": "`, then the description, so the substring test sees the path
as well as the description. -/
def is_elf_binary (describe : List Nat → Option String)
    (path : String) (content : List Nat) : Bool :=
  match describe content with
  | some d => pyIn "ELF" (path ++ ": " ++ d)
  | none => false

/-- A faithful model of the external `file` tool's description of common
inputs: content beginning with the ELF magic is described as an ELF
executable, other content as ASCII text. -/
def stdDescribe (content : List Nat) : Option String :=
  if content.take 4 = ELF_MAGIC then some "ELF 64-bit LSB executable, x86-64"
  else some "ASCII text"

/-- `is_shebang_script` (batch_soar_fetch.py, lines 52-59): read the
first two bytes and compare with `b"#!"` (a shorter file compares
unequal). -/
def is_shebang_script (content : List Nat) : Bool :=
  content.take 2 == SHEBANG

/-- How one staged file is classified by the branch order of
`process_downloaded_files` (batch_soar_fetch.py, lines 144-164): the ELF
check runs first, the shebang check only if it answered `False`. -/
inductive FileClass where
  | binary
  | script
  | unrecognized
deriving DecidableEq, Repr

/-- Classification of a staged file as implied by the branch order of
`process_downloaded_files`. -/
def classify (describe : List Nat → Option String)
    (path : String) (content : List Nat) : FileClass :=
  if is_elf_binary describe path content then .binary
  else if is_shebang_script content then .script
  else .unrecognized

/-! ## `batch_soar_fetch.py`: processing downloaded files -/

/-- A file found under the batch temporary download tree: the full path
handed to the `file` command, its base name (`file_path.name`), and its
content bytes. -/
structure StagedFile where
  path : String
  name : String
  content : List Nat
deriving DecidableEq, Repr

/-- The log lines printed by `process_downloaded_files`. -/
inductive LogEvent where
  | skipExisting (name : String)
  | copiedBinary (name : String)
  | copiedScript (name : String)
  | ignored (name : String)
deriving DecidableEq, Repr

/-- The state threaded through the `process_downloaded_files` loop: the
output `bin` directory as an association list from base name to content,
the accumulated `processed` list, and the log. -/
structure ProcState where
  outDir : List (String × List Nat)
  processed : List String
  log : List LogEvent
deriving DecidableEq, Repr

/-- One iteration of the loop of `process_downloaded_files`
(batch_soar_fetch.py, lines 132-164): skip (with a log line) if a file of
the same base name already exists in the output directory; else copy if
the ELF check answers `True`; else copy if the shebang check answers
`True`; else log the file as ignored.  Copies are modelled as always
succeeding, so the `except: pass` fall-throughs around `shutil.copy2` are
never taken. -/
def processFile (describe : List Nat → Option String)
    (st : ProcState) (f : StagedFile) : ProcState :=
  if (st.outDir.lookup f.name).isSome then
    { st with log := st.log ++ [.skipExisting f.name] }
  else if is_elf_binary describe f.path f.content then
    { outDir := st.outDir ++ [(f.name, f.content)]
    , processed := st.processed ++ [f.name]
    , log := st.log ++ [.copiedBinary f.name] }
  else if is_shebang_script f.content then
    { outDir := st.outDir ++ [(f.name, f.content)]
    , processed := st.processed ++ [f.name]
    , log := st.log ++ [.copiedScript f.name] }
  else
    { st with log := st.log ++ [.ignored f.name] }

/-- `process_downloaded_files` (batch_soar_fetch.py, lines 116-166): walk
the staged files in order over an initial output-directory state. -/
def process_downloaded_files (describe : List Nat → Option String)
    (outDir0 : List (String × List Nat)) (staged : List StagedFile) :
    ProcState :=
  staged.foldl (processFile describe) ⟨outDir0, [], []⟩

/-- `set_executable_permissions` (batch_soar_fetch.py, lines 169-179),
per file: the new mode is the old mode with the three executable bits
`0o111` or-ed in. -/
def set_executable_permissions_mode (mode : Nat) : Nat :=
  mode ||| 0o111

/-! ## `batch_soar_fetch.py`: per-package fetch and the batch loop -/

/-- Outcome of one Asset Resolver subprocess at the batch layer: it
exited (with a code, having produced some number of files in its staging
directory), it hit the 300-second timeout, or spawning raised. -/
inductive FetchOutcome where
  | exited (returncode : Int) (producedFiles : Nat)
  | timedOut
  | raised
deriving DecidableEq, Repr

/-- The success judgement of `fetch_package` (batch_soar_fetch.py, lines
86-113): `True` exactly when the subprocess exited with code 0 (the file
count is computed only for logging); `TimeoutExpired` and any other
exception yield `False`. -/
def fetch_package : FetchOutcome → Bool
  | .exited rc _ => rc == 0
  | .timedOut => false
  | .raised => false

/-- The observable result of the batch `main` after the fetch loop
(batch_soar_fetch.py, lines 313-356). -/
structure BatchResult where
  failures : List String
  reportFile : Option String
  exitCode : Nat
deriving DecidableEq, Repr

/-- The failure-accumulating fetch loop of `main` (batch_soar_fetch.py,
lines 316-323): packages are attempted in order and every identifier
whose `fetch_package` fails is appended to `failures`. -/
def batch_failures (fetch : String → FetchOutcome) :
    List String → List String → List String
  | acc, [] => acc
  | acc, repo :: rest =>
    if fetch_package (fetch repo) then batch_failures fetch acc rest
    else batch_failures fetch (acc ++ [repo]) rest

/-- The tail of the batch `main` (batch_soar_fetch.py, lines 336-356):
`FAILED_FETCHES.txt` is written only when `failures` is nonempty, with
the single line `FAILED_FETCHES:<id1>,<id2>,...`, and the process always
exits 0. -/
def batch_run (fetch : String → FetchOutcome) (packages : List String) :
    BatchResult :=
  let failures := batch_failures fetch [] packages
  { failures := failures
  , reportFile :=
      if failures.isEmpty then none
      else some ("FAILED_FETCHES:" ++ String.intercalate "," failures ++ "\n")
  , exitCode := 0 }

/-! ## Comparison definition from the specification's words -/

/-- The post-success permission normalization described by the
specification: every produced file beginning with the 4-byte ELF magic or
with `#!` gets the user/group/other executable bits (`0o111`) added to
its mode, all other bits preserved.  Stated from the spec's words only to
compare against the code: `main` of soar_fetch_static.py has no
permission-changing step on any branch. -/
def spec_claimed_normalize_mode (content : List Nat) (mode : Nat) : Nat :=
  if content.take 4 == ELF_MAGIC || content.take 2 == SHEBANG then
    mode ||| 0o111
  else mode

/-! ## Concrete environments used by witnesses and counterexamples -/

/-- An environment in which every GitHub-scoped attempt leaves the
temporary download directory empty and the Tier-2 index lookup exits 0
with clean output. -/
def envTier2 : ResolveEnv := ⟨fun _ => .ran 0 [], .ran 0 "" ""⟩

/-- An environment in which every GitHub-scoped attempt downloads an
archive at once and the Tier-2 lookup would fail. -/
def envTier1 : ResolveEnv := ⟨fun _ => .ran 0 ["asset.tar.gz"], .ran 1 "" ""⟩

/-- An environment in which every tier fails: GitHub-scoped attempts
leave the download directory empty and the Tier-2 lookup exits 1. -/
def envAllFail : ResolveEnv := ⟨fun _ => .ran 0 [], .ran 1 "" ""⟩

/-- An environment in which exactly the regex `"rx"` downloads a file,
with a nonzero subprocess exit code. -/
def envC3 : ResolveEnv :=
  ⟨fun r => if r == "rx" then .ran 2 ["file.tar.gz"] else .ran 0 [], .ran 1 "" ""⟩

/-- A batch environment in which `bad/repo` exits 1 and every other
package exits 0 having produced two files. -/
def batchEnvOneFailure : String → FetchOutcome :=
  fun p => if p == "bad/repo" then .exited 1 0 else .exited 0 2

/-! ## Helper lemmas -/

/-- The pattern chain of `attempt_download_github_multi` succeeds iff
some pattern in the list succeeds. -/
theorem multi_snd_eq_any (env : ResolveEnv) (rs : List String) :
    (attempt_download_github_multi env rs).2 =
      rs.any (attempt_download_github env) := by
  induction rs with
  | nil => rfl
  | cons r rest ih =>
    unfold attempt_download_github_multi
    cases h : attempt_download_github env r
    · simp [h, ih]
    · simp [h]

/-- The patterns actually attempted by `attempt_download_github_multi`
are the failing patterns of the list in order, followed by the first
succeeding one when there is one. -/
theorem multi_fst_eq (env : ResolveEnv) (rs : List String) :
    (attempt_download_github_multi env rs).1 =
      rs.takeWhile (fun r => !attempt_download_github env r) ++
      (rs.dropWhile (fun r => !attempt_download_github env r)).take 1 := by
  induction rs with
  | nil => rfl
  | cons r rest ih =>
    unfold attempt_download_github_multi
    cases h : attempt_download_github env r
    · simp [List.takeWhile_cons, List.dropWhile_cons, h, ih]
    · simp [List.takeWhile_cons, List.dropWhile_cons, h]

/-- A key bound in an association list keeps its first binding after
appending entries on the right. -/
theorem lookup_append_of_some {α β : Type} [BEq α] (l l' : List (α × β))
    (x : α) (c : β) (h : l.lookup x = some c) : (l ++ l').lookup x = some c := by
  induction l with
  | nil => simp [List.lookup] at h
  | cons p rest ih =>
    obtain ⟨k, v⟩ := p
    rw [List.cons_append]
    simp only [List.lookup] at h ⊢
    cases hk : x == k
    · rw [hk] at h
      simp only at h
      simp only [hk]
      exact ih h
    · rw [hk] at h
      simp only at h
      simp only [hk]
      exact h

/-- One loop iteration of `process_downloaded_files` never changes the
binding of a name already present in the output directory. -/
theorem processFile_lookup_preserved (describe : List Nat → Option String)
    (st : ProcState) (f : StagedFile) (x : String) (c : List Nat)
    (h : st.outDir.lookup x = some c) :
    ((processFile describe st f).outDir).lookup x = some c := by
  unfold processFile
  by_cases h1 : (st.outDir.lookup f.name).isSome = true
  · simp only [h1, if_true]
    exact h
  · simp only [h1, if_false]
    cases h2 : is_elf_binary describe f.path f.content
    · simp only [Bool.false_eq_true, if_false]
      cases h3 : is_shebang_script f.content
      · simp only [Bool.false_eq_true, if_false]
        exact h
      · simp only [if_true]
        exact lookup_append_of_some _ _ _ _ h
    · simp only [if_true]
      exact lookup_append_of_some _ _ _ _ h

/-- Every branch of one loop iteration appends exactly one log line. -/
theorem processFile_log_extend (describe : List Nat → Option String)
    (st : ProcState) (f : StagedFile) :
    ∃ ev, (processFile describe st f).log = st.log ++ [ev] := by
  unfold processFile
  by_cases h1 : (st.outDir.lookup f.name).isSome = true
  · exact ⟨.skipExisting f.name, by simp [h1]⟩
  · cases h2 : is_elf_binary describe f.path f.content
    · cases h3 : is_shebang_script f.content
      · exact ⟨.ignored f.name, by simp [h1, h2, h3]⟩
      · exact ⟨.copiedScript f.name, by simp [h1, h2, h3]⟩
    · exact ⟨.copiedBinary f.name, by simp [h1, h2]⟩

/-- An iteration on a file whose base name is already bound in the output
directory only logs the skip. -/
theorem processFile_skip (describe : List Nat → Option String)
    (st : ProcState) (f : StagedFile)
    (h : (st.outDir.lookup f.name).isSome = true) :
    processFile describe st f =
      { st with log := st.log ++ [.skipExisting f.name] } := by
  unfold processFile
  simp [h]

/-- The `process_downloaded_files` fold preserves existing bindings. -/
theorem foldl_lookup_preserved (describe : List Nat → Option String)
    (staged : List StagedFile) (st : ProcState) (x : String) (c : List Nat)
    (h : st.outDir.lookup x = some c) :
    ((staged.foldl (processFile describe) st).outDir).lookup x = some c := by
  induction staged generalizing st with
  | nil => exact h
  | cons f rest ih =>
    exact ih _ (processFile_lookup_preserved describe st f x c h)

/-- The `process_downloaded_files` fold only appends to the log. -/
theorem foldl_log_mem (describe : List Nat → Option String)
    (staged : List StagedFile) (st : ProcState) (e : LogEvent)
    (h : e ∈ st.log) :
    e ∈ (staged.foldl (processFile describe) st).log := by
  induction staged generalizing st with
  | nil => exact h
  | cons f rest ih =>
    apply ih
    obtain ⟨ev, hev⟩ := processFile_log_extend describe st f
    rw [hev]
    exact List.mem_append_left _ h

/-- If a staged file collides with an existing output name, the skip is
logged by the fold. -/
theorem foldl_skip_logged (describe : List Nat → Option String)
    (staged : List StagedFile) (st : ProcState) (x : String) (c : List Nat)
    (h : st.outDir.lookup x = some c) (hf : ∃ f ∈ staged, f.name = x) :
    LogEvent.skipExisting x ∈ (staged.foldl (processFile describe) st).log := by
  induction staged generalizing st with
  | nil => simp at hf
  | cons g rest ih =>
    obtain ⟨f, hfm, hfx⟩ := hf
    rw [List.mem_cons] at hfm
    rcases hfm with hgf | hmem
    · have hgx : g.name = x := by rw [← hgf]; exact hfx
      have hs : (st.outDir.lookup g.name).isSome = true := by
        rw [hgx, h]; rfl
      rw [List.foldl_cons, processFile_skip describe st g hs]
      apply foldl_log_mem
      rw [← hgx]
      exact List.mem_append_right _ (List.mem_singleton.mpr rfl)
    · rw [List.foldl_cons]
      exact ih _ (processFile_lookup_preserved describe st g x c h) ⟨f, hmem, hfx⟩

/-- The accumulated failure list of the batch loop is the failing
packages in order, appended to the accumulator. -/
theorem batch_failures_eq_filter (fetch : String → FetchOutcome)
    (packages acc : List String) :
    batch_failures fetch acc packages =
      acc ++ packages.filter (fun p => !fetch_package (fetch p)) := by
  induction packages generalizing acc with
  | nil => simp [batch_failures]
  | cons p rest ih =>
    unfold batch_failures
    cases h : fetch_package (fetch p)
    · rw [if_neg (by simp [h]), ih]
      simp [List.filter_cons, h]
    · rw [if_pos (by simp [h]), ih]
      simp [List.filter_cons, h]

/-! ## Claims -/

/-- **C1**: for every run environment and architecture, `main` tries the
resolution tiers in the fixed order Tier 1 (GitHub musl patterns, each
pattern from most to least specific, i.e. the attempted patterns are the
failing ones in list order followed by the first success), then Tier 2
(the `soar` package index with the bare identifier), then Tier 3 (GitHub
generic patterns in list order); it stops at the first tier that succeeds
and exits 0, and only if all three tiers fail does it report the fatal
`All attempts failed.` error and exit 1. -/
theorem C1_tier_order (env : ResolveEnv) (arch : String) :
    ((attempt_download_github_multi env (get_regex_list arch)).1 =
      (get_regex_list arch).takeWhile (fun r => !attempt_download_github env r) ++
      ((get_regex_list arch).dropWhile
        (fun r => !attempt_download_github env r)).take 1) ∧
    ((attempt_download_github_multi env (get_generic_regex_list arch)).1 =
      (get_generic_regex_list arch).takeWhile
        (fun r => !attempt_download_github env r) ++
      ((get_generic_regex_list arch).dropWhile
        (fun r => !attempt_download_github env r)).take 1) ∧
    ((attempt_download_github_multi env (get_regex_list arch)).2 = true →
      main_resolve env arch = ⟨[.githubMusl], 0, []⟩) ∧
    ((attempt_download_github_multi env (get_regex_list arch)).2 = false →
      attempt_download_soar env.soar = true →
      main_resolve env arch = ⟨[.githubMusl, .soarRepo], 0, []⟩) ∧
    ((attempt_download_github_multi env (get_regex_list arch)).2 = false →
      attempt_download_soar env.soar = false →
      (attempt_download_github_multi env (get_generic_regex_list arch)).2 = true →
      main_resolve env arch = ⟨[.githubMusl, .soarRepo, .githubGeneric], 0, []⟩) ∧
    ((attempt_download_github_multi env (get_regex_list arch)).2 = false →
      attempt_download_soar env.soar = false →
      (attempt_download_github_multi env (get_generic_regex_list arch)).2 = false →
      main_resolve env arch = ⟨[.githubMusl, .soarRepo, .githubGeneric], 1, []⟩) := by
  refine ⟨multi_fst_eq env _, multi_fst_eq env _, ?_, ?_, ?_, ?_⟩
  · intro h1
    simp [main_resolve, h1]
  · intro h1 h2
    simp [main_resolve, h1, h2]
  · intro h1 h2 h3
    simp [main_resolve, h1, h2, h3]
  · intro h1 h2 h3
    simp [main_resolve, h1, h2, h3]

/-- Witness for C1 at a concrete environment: Tier 1 fails (empty
download directories), Tier 2 succeeds, so exactly the first two tiers
are tried and the exit code is 0. -/
theorem C1_tier_order_witness :
    (attempt_download_github_multi envTier2 (get_regex_list "x86_64")).2 = false ∧
    attempt_download_soar envTier2.soar = true ∧
    main_resolve envTier2 "x86_64" = ⟨[.githubMusl, .soarRepo], 0, []⟩ :=
  ⟨by decide, by decide,
   (C1_tier_order envTier2 "x86_64").2.2.2.1 (by decide) (by decide)⟩

/-- **C2 counterexample**: the claim says each GitHub-scoped invocation
directs the CLI to extract into a tier-specific temporary location
isolated from the destination.  In the command actually built by
`attempt_download_github` / `attempt_download_generic`, the argument
following `--extract-dir` is the destination directory itself, not the
per-call temporary directory. -/
theorem C2_counterexample :
    (github_dl_cmd "owner/repo" "(?i).*x86[_-]?64.*musl.*\\.tar\\.(?:gz|xz)$"
      "/build/dest" "/tmp/tier1").get? 8 = some "--extract-dir" ∧
    (github_dl_cmd "owner/repo" "(?i).*x86[_-]?64.*musl.*\\.tar\\.(?:gz|xz)$"
      "/build/dest" "/tmp/tier1").get? 9 = some "/build/dest" ∧
    ("/build/dest" : String) ≠ "/tmp/tier1" :=
  ⟨rfl, rfl, by decide⟩

/-- **C2 amended**: every GitHub-scoped tier invocation is non-interactive
(`-y`) and directs the CLI's download output (`-o`) into the tier-specific
temporary directory, but directs extraction (`--extract-dir`) into the
destination directory itself; the temporary directory isolates only the
downloaded archive, not the extracted files. -/
theorem C2_extract_into_dest (repo regex dest tmpd : String) :
    (github_dl_cmd repo regex dest tmpd).get? 2 = some "-y" ∧
    (github_dl_cmd repo regex dest tmpd).get? 8 = some "--extract-dir" ∧
    (github_dl_cmd repo regex dest tmpd).get? 9 = some dest ∧
    (github_dl_cmd repo regex dest tmpd).get? 10 = some "-o" ∧
    (github_dl_cmd repo regex dest tmpd).get? 11 = some tmpd :=
  ⟨rfl, rfl, rfl, rfl, rfl⟩

/-- **C3**: Tier 1/3 success is structural (the temporary download
directory is nonempty), not the subprocess exit code: exit code 0 with an
empty directory is a failure (and all-patterns-empty Tier 1 falls through
to Tier 2), while a nonzero exit code with files present is a success. -/
theorem C3_structural_success (env : ResolveEnv) (regex : String)
    (rc : Int) (files : List String) :
    (env.github regex = .ran 0 [] →
      attempt_download_github env regex = false) ∧
    (env.github regex = .ran rc files → files ≠ [] →
      attempt_download_github env regex = true) ∧
    ((∀ r, env.github r = .ran 0 []) → ∀ arch,
      Tier.soarRepo ∈ (main_resolve env arch).tiersTried) := by
  refine ⟨?_, ?_, ?_⟩
  · intro h
    simp [attempt_download_github, h, github_attempt_decision]
  · intro h hne
    simp [attempt_download_github, h, github_attempt_decision,
      List.isEmpty_iff, hne]
  · intro hall arch
    have h1 : (attempt_download_github_multi env (get_regex_list arch)).2 = false := by
      rw [multi_snd_eq_any]
      simp only [List.any_eq_false]
      intro r _
      simp [attempt_download_github, hall r, github_attempt_decision]
    by_cases h2 : attempt_download_soar env.soar = true
    · simp [main_resolve, h1, h2]
    · by_cases h3 : (attempt_download_github_multi env
          (get_generic_regex_list arch)).2 = true
      · simp [main_resolve, h1, h2, h3]
      · simp [main_resolve, h1, h2, h3]

/-- Witness for C3: a nonzero-exit attempt with a downloaded file counts
as success, and an all-exit-0-but-empty Tier 1 falls through to Tier 2. -/
theorem C3_structural_success_witness :
    attempt_download_github envC3 "rx" = true ∧
    Tier.soarRepo ∈ (main_resolve envTier2 "x86_64").tiersTried :=
  ⟨(C3_structural_success envC3 "rx" 2 ["file.tar.gz"]).2.1 (by decide) (by decide),
   (C3_structural_success envTier2 "r" 0 []).2.2 (fun _ => rfl) "x86_64"⟩

/-- **C4** (code bug): after a tier of the Asset Resolver succeeds, `main`
of soar_fetch_static.py performs no file inspection and no permission
change at all — on every branch its list of permission operations is
empty — although its own help text says "ELF files get executable bit
set", and the specification's normalization would turn an ELF file's mode
0o644 into 0o755. -/
theorem C4_no_chmod_in_resolver :
    (main_resolve envTier1 "x86_64").exitCode = 0 ∧
    (main_resolve envTier1 "x86_64").chmodOps = [] ∧
    (∀ env arch, (main_resolve env arch).chmodOps = []) ∧
    spec_claimed_normalize_mode ELF_MAGIC 0o644 = 0o755 ∧
    (0o644 : Nat) ≠ 0o755 := by
  refine ⟨by decide, by decide, ?_, by decide, by decide⟩
  intro env arch
  unfold main_resolve
  by_cases h1 : (attempt_download_github_multi env (get_regex_list arch)).2 = true
  · simp [h1]
  · by_cases h2 : attempt_download_soar env.soar = true
    · simp [h1, h2]
    · by_cases h3 : (attempt_download_github_multi env
          (get_generic_regex_list arch)).2 = true
      · simp [h1, h2, h3]
      · simp [h1, h2, h3]

/-- **C5 counterexample**: the claim says the Batch Orchestrator uses the
same alias table as the Asset Resolver.  But `map_arch "aarch64"` yields
`"x86_64"` where `validate_arch` yields `arm64`, and an unrecognized
value like `"riscv64"` is silently mapped to `"x86_64"` by the batch
script where the resolver treats it as a fatal input error. -/
theorem C5_counterexample :
    map_arch "aarch64" = "x86_64" ∧
    validate_arch "aarch64" = some "arm64" ∧
    map_arch "riscv64" = "x86_64" ∧
    validate_arch "riscv64" = none := by
  refine ⟨rfl, rfl, rfl, rfl⟩

/-- **C5 amended**: the Batch Orchestrator's `map_arch` maps `"arm64"` to
`"arm64"` and every other value — including the aliases `"amd64"` and
`"aarch64"` as well as unrecognized strings — to `"x86_64"`; it never
signals an input error.  Only on `{x86_64, amd64, arm64}` does it agree
with the Asset Resolver's alias table. -/
theorem C5_arch_mapping (t : String) :
    map_arch "x86_64" = "x86_64" ∧
    map_arch "amd64" = "x86_64" ∧
    map_arch "arm64" = "arm64" ∧
    (t ≠ "arm64" → map_arch t = "x86_64") ∧
    (t = "x86_64" ∨ t = "amd64" ∨ t = "arm64" →
      validate_arch t = some (map_arch t)) := by
  refine ⟨rfl, rfl, rfl, ?_, ?_⟩
  · intro ht
    unfold map_arch
    rw [if_neg]
    simp [ht]
  · rintro (h | h | h) <;> subst h <;> rfl

/-- Witness for C5 amended at `"aarch64"`. -/
theorem C5_arch_mapping_witness :
    ("aarch64" : String) ≠ "arm64" ∧ map_arch "aarch64" = "x86_64" :=
  ⟨by decide, (C5_arch_mapping "aarch64").2.2.2.1 (by decide)⟩

/-- **C6 counterexample**: the claim says identifiers without exactly one
`/`-delimited pair are rejected before any subprocess.  The identifier
`"a/b/c"` contains two slashes, yet `parse_args` accepts it and the
resolver goes on to attempt all three tiers (spawning subprocesses). -/
theorem C6_counterexample :
    parse_args (some "a/b/c") false (some "/out") none =
      .ok "a/b/c" "/out" none ∧
    (("a/b/c").toList.filter (fun c => c == '/')).length = 2 ∧
    (soar_fetch_program (some "a/b/c") false (some "/out") (some "x86_64")
      "x86_64" envAllFail).tiersTried =
      [.githubMusl, .soarRepo, .githubGeneric] := by
  refine ⟨by decide, by decide, by decide⟩

/-- **C6 amended**: the Asset Resolver rejects a package identifier as a
fatal error (exit 1, no tier attempted and hence no subprocess spawned)
exactly when it contains no `/` at all; any identifier containing at
least one `/` passes the format check. -/
theorem C6_slash_check (repo dest : String) (arch : Option String)
    (hrepo : repo ≠ "") (hdest : dest ≠ "") :
    (pyIn "/" repo = false →
      parse_args (some repo) false (some dest) arch =
        .fatal "repo must be in owner/repo format" ∧
      ∀ hostMachine env,
        soar_fetch_program (some repo) false (some dest) arch hostMachine env =
          ⟨[], 1, []⟩) ∧
    (pyIn "/" repo = true →
      parse_args (some repo) false (some dest) arch = .ok repo dest arch) := by
  have h1 : pyTruthyOpt (some repo) = true := by
    simp [pyTruthyOpt, hrepo]
  have h2 : pyTruthyOpt (some dest) = true := by
    simp [pyTruthyOpt, hdest]
  constructor
  · intro hslash
    have hp : parse_args (some repo) false (some dest) arch =
        .fatal "repo must be in owner/repo format" := by
      simp [parse_args, h1, h2, hslash]
    refine ⟨hp, fun hostMachine env => ?_⟩
    simp [soar_fetch_program, hp]
  · intro hslash
    simp [parse_args, h1, h2, hslash]

/-- Witness for C6 amended: `"badrepo"` has no slash and is rejected with
no tier attempted. -/
theorem C6_slash_check_witness :
    parse_args (some "badrepo") false (some "/out") none =
      .fatal "repo must be in owner/repo format" ∧
    soar_fetch_program (some "badrepo") false (some "/out") none "x86_64"
      envAllFail = ⟨[], 1, []⟩ :=
  ⟨((C6_slash_check "badrepo" "/out" none (by decide) (by decide)).1 (by decide)).1,
   ((C6_slash_check "badrepo" "/out" none (by decide) (by decide)).1 (by decide)).2
     "x86_64" envAllFail⟩

/-- **C7 counterexample**: the claim says classification is structural
byte inspection, never based on the file name, and that files matching
neither rule are never copied.  But `is_elf_binary` searches for the
substring `"ELF"` in the whole output of `file -L <path>`, which begins
with the path itself: the plain text file `ELF-README.txt` (content
`hello`, neither ELF magic nor shebang) is classified binary and copied
into the output directory. -/
theorem C7_counterexample :
    classify stdDescribe "ELF-README.txt" [0x68, 0x65, 0x6c, 0x6c, 0x6f] =
      .binary ∧
    ([0x68, 0x65, 0x6c, 0x6c, 0x6f] : List Nat).take 4 ≠ ELF_MAGIC ∧
    ([0x68, 0x65, 0x6c, 0x6c, 0x6f] : List Nat).take 2 ≠ SHEBANG ∧
    (process_downloaded_files stdDescribe []
      [⟨"ELF-README.txt", "ELF-README.txt", [0x68, 0x65, 0x6c, 0x6c, 0x6f]⟩]).outDir =
      [("ELF-README.txt", [0x68, 0x65, 0x6c, 0x6c, 0x6f])] := by
  refine ⟨by decide, by decide, by decide, by decide⟩

/-- **C7 amended**: ELF detection is delegated to the external `file`
command via a substring search for `"ELF"` over its whole output, which
includes the file path, so a path containing `"ELF"` defeats structural
classification.  Whenever the ELF verdict coincides with the
first-4-bytes magic test (in particular for paths not containing `"ELF"`
under standard `file` behavior), classification is structural: ELF magic
yields binary regardless of name; `#!` without the magic yields script;
a file matching neither rule is unrecognized, and such a file is never
copied into the output directory (its processing step leaves the output
directory and processed list unchanged). -/
theorem C7_classification (describe : List Nat → Option String)
    (f : StagedFile) (st : ProcState)
    (h : is_elf_binary describe f.path f.content =
      decide (f.content.take 4 = ELF_MAGIC)) :
    (f.content.take 4 = ELF_MAGIC →
      classify describe f.path f.content = .binary) ∧
    (f.content.take 4 ≠ ELF_MAGIC → f.content.take 2 = SHEBANG →
      classify describe f.path f.content = .script) ∧
    (classify describe f.path f.content = .unrecognized →
      (processFile describe st f).outDir = st.outDir ∧
      (processFile describe st f).processed = st.processed) := by
  refine ⟨?_, ?_, ?_⟩
  · intro hm
    simp [classify, h, hm]
  · intro hm hs
    simp [classify, h, hm, is_shebang_script, hs]
  · intro hc
    have helf : is_elf_binary describe f.path f.content = false := by
      cases hx : is_elf_binary describe f.path f.content
      · rfl
      · simp [classify, hx] at hc
    have hsh : is_shebang_script f.content = false := by
      cases hy : is_shebang_script f.content
      · rfl
      · simp [classify, helf, hy] at hc
    unfold processFile
    by_cases hl : (st.outDir.lookup f.name).isSome = true
    · simp [hl]
    · simp [hl, helf, hsh]

/-- Witness for C7 amended: an ELF-magic file named `tool` is classified
binary. -/
theorem C7_classification_witness :
    classify stdDescribe "tool" ELF_MAGIC = .binary :=
  (C7_classification stdDescribe ⟨"tool", "tool", ELF_MAGIC⟩ ⟨[], [], []⟩
    (by decide)).1 (by decide)

/-- **C8**: when the output bin directory already binds a base name `x`,
processing any batch of staged files retains that binding unchanged (the
pre-existing file is never overwritten), and if some staged file collides
with `x` the skip is logged. -/
theorem C8_no_overwrite (describe : List Nat → Option String)
    (outDir0 : List (String × List Nat)) (staged : List StagedFile)
    (x : String) (c : List Nat) (hx : outDir0.lookup x = some c) :
    (process_downloaded_files describe outDir0 staged).outDir.lookup x =
      some c ∧
    ((∃ f ∈ staged, f.name = x) →
      LogEvent.skipExisting x ∈
        (process_downloaded_files describe outDir0 staged).log) :=
  ⟨foldl_lookup_preserved describe staged _ x c hx,
   fun hf => foldl_skip_logged describe staged _ x c hx hf⟩

/-- Witness for C8: a pre-existing `jq` binding survives the processing
of a colliding staged script, and the skip is logged. -/
theorem C8_no_overwrite_witness :
    (process_downloaded_files stdDescribe [("jq", ELF_MAGIC)]
      [⟨"/t/jq", "jq", [0x23, 0x21, 0x2f]⟩]).outDir.lookup "jq" =
      some ELF_MAGIC ∧
    LogEvent.skipExisting "jq" ∈
      (process_downloaded_files stdDescribe [("jq", ELF_MAGIC)]
        [⟨"/t/jq", "jq", [0x23, 0x21, 0x2f]⟩]).log :=
  ⟨(C8_no_overwrite stdDescribe [("jq", ELF_MAGIC)]
      [⟨"/t/jq", "jq", [0x23, 0x21, 0x2f]⟩] "jq" ELF_MAGIC (by decide)).1,
   (C8_no_overwrite stdDescribe [("jq", ELF_MAGIC)]
      [⟨"/t/jq", "jq", [0x23, 0x21, 0x2f]⟩] "jq" ELF_MAGIC (by decide)).2
     ⟨⟨"/t/jq", "jq", [0x23, 0x21, 0x2f]⟩, by simp, rfl⟩⟩

/-- **C9**: the batch run always exits 0; its failure list is exactly the
identifiers whose fetch failed, in order; the report file is written only
when at least one failure occurred, and then holds the single line
`FAILED_FETCHES:<id1>,<id2>,...`. -/
theorem C9_failure_report (fetch : String → FetchOutcome)
    (packages : List String) :
    (batch_run fetch packages).exitCode = 0 ∧
    (batch_run fetch packages).failures =
      packages.filter (fun p => !fetch_package (fetch p)) ∧
    ((batch_run fetch packages).failures ≠ [] →
      (batch_run fetch packages).reportFile =
        some ("FAILED_FETCHES:" ++
          String.intercalate "," (batch_run fetch packages).failures ++ "\n")) ∧
    ((batch_run fetch packages).failures = [] →
      (batch_run fetch packages).reportFile = none) := by
  refine ⟨rfl, ?_, ?_, ?_⟩
  · simp [batch_run, batch_failures_eq_filter]
  · intro h
    have hne : (batch_failures fetch [] packages).isEmpty = false := by
      simp only [batch_run] at h
      simp [List.isEmpty_iff, h]
    simp [batch_run, hne]
  · intro h
    have he : (batch_failures fetch [] packages).isEmpty = true := by
      simp only [batch_run] at h
      simp [List.isEmpty_iff, h]
    simp [batch_run, he]

/-- Witness for C9 at the concrete batch `["ok/repo", "bad/repo"]` where
only `bad/repo` fails. -/
theorem C9_failure_report_witness :
    (batch_run batchEnvOneFailure ["ok/repo", "bad/repo"]).failures =
      ["bad/repo"] ∧
    (batch_run batchEnvOneFailure ["ok/repo", "bad/repo"]).exitCode = 0 ∧
    (batch_run batchEnvOneFailure ["ok/repo", "bad/repo"]).reportFile =
      some ("FAILED_FETCHES:" ++
        String.intercalate ","
          (batch_run batchEnvOneFailure ["ok/repo", "bad/repo"]).failures ++
        "\n") :=
  ⟨by decide, by decide,
   (C9_failure_report batchEnvOneFailure ["ok/repo", "bad/repo"]).2.2.1
     (by decide)⟩

/-- **C10**: at the batch layer, per-package success is the resolver
subprocess's exit code alone — timeouts and spawn exceptions fail, an
exit-0 invocation is a success (kept out of the failure list) even with
zero files produced, and any nonzero exit code is a failure regardless of
the files produced. -/
theorem C10_exit_code_only (fetch : String → FetchOutcome)
    (packages : List String) (r : String) (rc : Int) (n : Nat) :
    fetch_package (.exited rc n) = (rc == 0) ∧
    fetch_package .timedOut = false ∧
    fetch_package .raised = false ∧
    (fetch r = .exited 0 0 → r ∉ (batch_run fetch packages).failures) ∧
    (r ∈ packages → fetch r = .exited rc n → rc ≠ 0 →
      r ∈ (batch_run fetch packages).failures) := by
  have hfail : (batch_run fetch packages).failures =
      packages.filter (fun p => !fetch_package (fetch p)) := by
    simp [batch_run, batch_failures_eq_filter]
  refine ⟨rfl, rfl, rfl, ?_, ?_⟩
  · intro h hmem
    rw [hfail] at hmem
    have hp := List.of_mem_filter hmem
    rw [h] at hp
    simp [fetch_package] at hp
  · intro hmem hf hrc
    rw [hfail]
    refine List.mem_filter.mpr ⟨hmem, ?_⟩
    rw [hf]
    simp [fetch_package, hrc]

/-- Witness for C10: an exit-0 resolver run with zero produced files is
not recorded as a failure, while an exit-1 run is. -/
theorem C10_exit_code_only_witness :
    "empty/repo" ∉
      (batch_run (fun _ => .exited 0 0) ["empty/repo"]).failures ∧
    "bad/repo" ∈ (batch_run (fun _ => .exited 1 0) ["bad/repo"]).failures :=
  ⟨(C10_exit_code_only (fun _ => .exited 0 0) ["empty/repo"] "empty/repo"
      0 0).2.2.2.1 rfl,
   (C10_exit_code_only (fun _ => .exited 1 0) ["bad/repo"] "bad/repo"
      1 0).2.2.2.2 (by simp) rfl (by decide)⟩

end PortableEnv
